import Mathlib

/-!
Verification of the query resolution pipeline of `src/backend/cli_query.py`.

The pipeline is embedded shallowly:

* Python strings are Lean `String`s; Python `s[:n]` is `pyslice`.
* A database row (a `dict` column → stringified value) is an association
  list `Row`; `row.get(col, '')` is `rowGet`.
* The two cache backends are the two components of `CacheState`:
  `redis` models the shared Redis keyspace reachable from this process, and
  `mock_cache` models the module-level in-memory fallback dict.  Both are
  association lists where a store conses the new binding in front (Python
  dict/Redis overwrite semantics for lookup).
* The collaborators answering one call of `query_with_cache` are collected
  in `CallEnv`: whether `get_redis_client()` returns a client (`probe`),
  whether the Redis `get`/`setex` raise (`getOk`/`setOk`), the outcome of
  `get_sql_from_llm` (`gen`, `none` models a raised exception), whether
  `mysql.connector.connect` succeeds (`dbConn`) and the outcome of
  `cursor.execute`/`fetchall` (`dbExec`, `none` models a raised exception).
* Python truthiness of an optional string (`if sql:`) is `truthy`:
  both `None` and the empty string are falsy.
* The functions `execute_sql`, `query_with_cache` and `print_results`
  mirror the source line by line; `execute_sql` additionally records
  whether a connection was opened and whether it was closed, and
  `query_with_cache` records how many times the SQL generator and the
  executor were invoked, so that the claims about resource release and
  about collaborator invocation counts can be stated.
-/

/-- Python `s[:n]`: the first `n` characters of `s` (all of `s` when it is shorter). -/
def pyslice (s : String) (n : Nat) : String :=
  String.mk (s.data.take n)

/-- A row returned by the relational store: an ordered mapping from column
name to stringified value (`cursor(dictionary=True)` rows, with values
already passed through `str`). -/
abbrev Row := List (String × String)

/-- Python `row.get(col, '')`. -/
def rowGet (row : Row) (col : String) : String :=
  (row.lookup col).getD ""

/-- The dict returned by `query_with_cache` on success:
`{'sql': ..., 'data': ..., 'cache_hit': ..., 'count': ...}`. -/
structure QueryResult where
  sql : String
  data : List Row
  cache_hit : Bool
  count : Nat
deriving Repr, DecidableEq

/-- The mutable cache state visible to one process: the shared Redis
keyspace and the module-level fallback dict `mock_cache`. -/
structure CacheState where
  redis : List (String × String)
  mock_cache : List (String × String)
deriving Repr, DecidableEq

/-- The collaborators' answers for a single `query_with_cache` call. -/
structure CallEnv where
  /-- Whether `get_redis_client()` returns a client (the ping succeeded). -/
  probe : Bool
  /-- Whether `redis_client.get` does not raise. -/
  getOk : Bool
  /-- Whether `redis_client.setex` does not raise. -/
  setOk : Bool
  /-- Outcome of `get_sql_from_llm(prompt)`; `none` models a raised exception. -/
  gen : Option String
  /-- Whether `mysql.connector.connect(**DB_CONFIG)` succeeds. -/
  dbConn : Bool
  /-- Outcome of `cursor.execute(sql)` + `fetchall()`; `none` models a raised exception. -/
  dbExec : String → Option (List Row)

/-- Python truthiness of the `sql` variable: `None` and `""` are falsy. -/
def truthy : Option String → Bool
  | none => false
  | some s => !(s == "")

/-- Trace of one `execute_sql` call: whether a MySQL connection was opened,
whether it was closed before returning, and the returned value
(`none` models Python `None`). -/
structure ExecOut where
  opened : Bool
  closed : Bool
  result : Option (List Row)
deriving Repr

/-- The function `execute_sql(sql)` (lines 58–73).  A fresh connection is requested per
call; on the success path `cursor.close()`/`conn.close()` run before
`return results`; the `except` branch returns `None` without closing the
connection (there is no `finally`). -/
def execute_sql (env : CallEnv) (sql : String) : ExecOut :=
  if env.dbConn then
    match env.dbExec sql with
    | some results => { opened := true, closed := true, result := some results }
    | none => { opened := true, closed := false, result := none }
  else
    { opened := false, closed := false, result := none }

/-- Step 1 of `query_with_cache` (lines 82–94): the cache check.  Returns
the value of the `sql` variable after the branch and the `cache_hit` flag.
With a client, `sql = redis_client.get(cache_key)` and `cache_hit` is set
only when `sql` is truthy; a raising `get` leaves `sql = None`.  Without a
client, `mock_cache` is consulted under the raw prompt and `cache_hit` is
set whenever the key is present, truthy value or not. -/
def checkCache (env : CallEnv) (st : CacheState) (prompt : String) : Option String × Bool :=
  let cache_key := "cache:" ++ prompt
  if env.probe then
    if env.getOk then
      let sql := st.redis.lookup cache_key
      (sql, truthy sql)
    else
      (none, false)
  else
    match st.mock_cache.lookup prompt with
    | some s => (some s, true)
    | none => (none, false)

/-- Outcome of one `query_with_cache` call: the returned dict (`none`
models `return None`), the cache state after the call, and how many times
the SQL generator and `execute_sql` were invoked. -/
structure CallOut where
  result : Option QueryResult
  state : CacheState
  genCalls : Nat
  execCalls : Nat
deriving Repr

/-- Step 3 of `query_with_cache` (lines 119–131): run `execute_sql` and
package the result dict; `results is None` propagates `None`. -/
def runExec (env : CallEnv) (st : CacheState) (sql : String) (hit : Bool)
    (g : Nat) : CallOut :=
  match (execute_sql env sql).result with
  | none => { result := none, state := st, genCalls := g, execCalls := 1 }
  | some results =>
      { result := some { sql := sql, data := results, cache_hit := hit, count := results.length },
        state := st, genCalls := g, execCalls := 1 }

/-- The function `query_with_cache(prompt)` (lines 75–131).  Probes Redis afresh, checks
the appropriate cache backend, calls the generator when the `sql` variable
is falsy (caching the generated SQL, with `setex` failures swallowed), and
finally executes the SQL. -/
def query_with_cache (env : CallEnv) (st : CacheState) (prompt : String) : CallOut :=
  let cache_key := "cache:" ++ prompt
  let looked := checkCache env st prompt
  if truthy looked.1 then
    runExec env st (looked.1.getD "") looked.2 0
  else
    match env.gen with
    | none => { result := none, state := st, genCalls := 1, execCalls := 0 }
    | some sql =>
        let st' :=
          if env.probe then
            if env.setOk then { st with redis := (cache_key, sql) :: st.redis } else st
          else
            { st with mock_cache := (prompt, sql) :: st.mock_cache }
        runExec env st' sql looked.2 1

/-- A run of `n` spaces. -/
def spaces (n : Nat) : String :=
  String.mk (List.replicate n ' ')

/-- Python `f"{s:^{w}}"`: center `s` in width `w`; for an odd margin the
extra space goes to the right. -/
def padCenter (s : String) (w : Nat) : String :=
  let m := w - s.length
  spaces (m / 2) ++ s ++ spaces (m - m / 2)

/-- Python `f"{s:<{w}}"`: left-align `s` in width `w`. -/
def padLeftAlign (s : String) (w : Nat) : String :=
  s ++ spaces (w - s.length)

/-- Column width computed by `print_results` (lines 149–153):
`max(header_len, max_data_len) + 2` where `max_data_len` is the maximum
stringified value length of the column over all rows. -/
def colWidth (data : List Row) (col : String) : Nat :=
  max col.length ((data.map fun row => (rowGet row col).length).foldl max 0) + 2

/-- The header line (lines 160–163): `"|"` followed, per column, by
`f" {col:^{width-2}} |"`. -/
def headerLine (columns : List String) (width : String → Nat) : String :=
  columns.foldl (fun line col => line ++ " " ++ padCenter col (width col - 2) ++ " |") "|"

/-- One data line (lines 167–172): `"|"` followed, per column, by
`f" {str(row.get(col, ''))[:width-2]:<{width-2}} |"`. -/
def dataLine (columns : List String) (width : String → Nat) (row : Row) : String :=
  columns.foldl
    (fun line col =>
      line ++ " " ++ padLeftAlign (pyslice (rowGet row col) (width col - 2)) (width col - 2) ++ " |")
    "|"

/-- The trailing summary line (line 175). -/
def summaryLine (count : Nat) (cache_hit : Bool) : String :=
  "📊  共 " ++ toString count ++ " 条记录 " ++ (if cache_hit then "(来自缓存)" else "")

/-- The function `print_results(results)` (lines 133–175) as the list of printed lines.
`None` prints the failure message; an empty `data` prints the
empty-result message; otherwise the rule/header/rule, one line per row,
rule, and the summary line are printed. -/
def print_results (results : Option QueryResult) : List String :=
  match results with
  | none => ["⚠️  查询失败，无数据返回"]
  | some r =>
    match r.data with
    | [] => ["📭  查询结果为空"]
    | d0 :: _ =>
      let data := r.data
      let columns := d0.map Prod.fst
      let width := colWidth data
      let total_width := (columns.map width).sum + columns.length + 1
      let rule := String.mk (List.replicate total_width '=')
      [rule, headerLine columns width, rule]
        ++ data.map (dataLine columns width)
        ++ [rule, summaryLine r.count r.cache_hit]

/-! Concrete collaborator environments and cache states used to evaluate
the pipeline at specific inputs. -/

/-- No Redis client; generator answers `"G"`; MySQL returns one row. -/
def envMockEmpty : CallEnv :=
  { probe := false, getOk := true, setOk := true, gen := some "G",
    dbConn := true, dbExec := fun _ => some [[("a", "1")]] }

/-- Fallback dict holding the empty string for prompt `"p"`. -/
def stMockEmpty : CacheState := { redis := [], mock_cache := [("p", "")] }

/-- Redis reachable; MySQL statement execution raises. -/
def envRedisHitFail : CallEnv :=
  { probe := true, getOk := true, setOk := true, gen := some "G",
    dbConn := true, dbExec := fun _ => none }

/-- Redis holding `"S"` for prompt `"q"`. -/
def stRedisHit : CacheState := { redis := [("cache:q", "S")], mock_cache := [] }

/-- Redis reachable and MySQL returning one row. -/
def envRedisHitOk : CallEnv :=
  { probe := true, getOk := true, setOk := true, gen := some "G",
    dbConn := true, dbExec := fun _ => some [[("a", "1")]] }

/-- Redis reachable but the generator raises. -/
def c2Env : CallEnv :=
  { probe := true, getOk := true, setOk := true, gen := none,
    dbConn := true, dbExec := fun _ => some [] }

/-- A cache with unrelated entries in both backends. -/
def c2St : CacheState :=
  { redis := [("cache:other", "SO")], mock_cache := [("old", "SM")] }

/-- First call of the backend-switch scenario: Redis unreachable. -/
def c3Env₁ : CallEnv :=
  { probe := false, getOk := true, setOk := true, gen := some "S1",
    dbConn := true, dbExec := fun _ => some [[("a", "1")]] }

/-- Second call of the backend-switch scenario: Redis reachable again and
the generator now answers `"S2"`. -/
def c3Env₂ : CallEnv := { c3Env₁ with probe := true, gen := some "S2" }

/-- Outcome of the first backend-switch call, from an empty cache. -/
def c3Out₁ : CallOut := query_with_cache c3Env₁ { redis := [], mock_cache := [] } "p"

/-- Outcome of the second backend-switch call, from the first call's state. -/
def c3Out₂ : CallOut := query_with_cache c3Env₂ c3Out₁.state "p"

/-- Connection succeeds but the statement raises. -/
def c4EnvFail : CallEnv :=
  { probe := false, getOk := false, setOk := false, gen := none,
    dbConn := true, dbExec := fun _ => none }

/-- Connection succeeds and the statement returns no rows. -/
def c4EnvOk : CallEnv :=
  { probe := false, getOk := false, setOk := false, gen := none,
    dbConn := true, dbExec := fun _ => some [] }

/-- Redis reachable and the generator consistently answers the empty string. -/
def c5Env : CallEnv :=
  { probe := true, getOk := true, setOk := true, gen := some "",
    dbConn := true, dbExec := fun _ => some [] }

/-- First resolution of the empty-SQL scenario. -/
def c5Out₁ : CallOut := query_with_cache c5Env { redis := [], mock_cache := [] } "p"

/-- Second, immediately repeated resolution of the empty-SQL scenario. -/
def c5Out₂ : CallOut := query_with_cache c5Env c5Out₁.state "p"

/-- Redis reachable, generator answers `"S"`, statement execution raises. -/
def c5EnvExecFail : CallEnv :=
  { probe := true, getOk := true, setOk := true, gen := some "S",
    dbConn := true, dbExec := fun _ => none }

/-- Redis unreachable; generator answers `"S"`. -/
def c8Env : CallEnv :=
  { probe := false, getOk := true, setOk := true, gen := some "S",
    dbConn := true, dbExec := fun _ => some [] }

/-- Redis unreachable; generator answers `"SW"`. -/
def c3wEnv : CallEnv :=
  { probe := false, getOk := true, setOk := true, gen := some "SW",
    dbConn := true, dbExec := fun _ => some [] }

/-- A state with one Shared entry and one fallback entry. -/
def c3wSt₁ : CacheState :=
  { redis := [("cache:x", "R1")], mock_cache := [("m", "SM")] }

/-- Same fallback dict as `c3wSt₁` but an empty Shared keyspace. -/
def c3wSt₂ : CacheState := { redis := [], mock_cache := [("m", "SM")] }

/-- Redis reachable; generator answers `"S9"`. -/
def c9Env : CallEnv :=
  { probe := true, getOk := true, setOk := true, gen := some "S9",
    dbConn := true, dbExec := fun _ => some [] }

/-- A state whose fallback dict still holds a stale entry for prompt `"p"`
from an earlier outage. -/
def c9St₁ : CacheState :=
  { redis := [("cache:z", "RZ")], mock_cache := [("p", "STALE")] }

/-- Same Shared keyspace as `c9St₁` but an empty fallback dict. -/
def c9St₂ : CacheState := { redis := [("cache:z", "RZ")], mock_cache := [] }

/-- Redis reachable, generator answering `"SELECT 1"`, MySQL returning one
row; used to resolve the same fresh prompt twice. -/
def c5wEnv : CallEnv :=
  { probe := true, getOk := true, setOk := true, gen := some "SELECT 1",
    dbConn := true, dbExec := fun _ => some [[("x", "1")]] }

/-- Redis reachable, generator answering `"SELECT"`, MySQL returning zero
rows. -/
def c6wEnv : CallEnv :=
  { probe := true, getOk := true, setOk := true, gen := some "SELECT",
    dbConn := true, dbExec := fun _ => some [] }

/-- Redis reachable; generator answers `"S8"`. -/
def c8wEnv : CallEnv :=
  { probe := true, getOk := true, setOk := true, gen := some "S8",
    dbConn := true, dbExec := fun _ => some [] }

/-- The two rows of the formatter example from the spec. -/
def exampleRows : List Row :=
  [[("id", "1"), ("name", "Alpha")], [("id", "2"), ("name", "B")]]

/-- The result dict carrying the formatter example rows. -/
def exampleResult : QueryResult :=
  { sql := "SELECT id, name FROM t", data := exampleRows, cache_hit := false, count := 2 }

/-! Helper lemmas. -/

/-- The seed of a `foldl max` is below the fold. -/
theorem init_le_foldl_max (xs : List Nat) (a : Nat) : a ≤ xs.foldl max a := by
  induction xs generalizing a with
  | nil => exact le_refl a
  | cons x xs ih => exact le_trans (le_max_left a x) (ih (max a x))

/-- Every member of a list is below its `foldl max`. -/
theorem mem_le_foldl_max (xs : List Nat) (a x : Nat) (hx : x ∈ xs) :
    x ≤ xs.foldl max a := by
  induction xs generalizing a with
  | nil => cases hx
  | cons y ys ih =>
    rw [List.foldl_cons]
    rcases List.mem_cons.mp hx with h | h
    · subst h
      exact le_trans (le_max_right a x) (init_le_foldl_max ys (max a x))
    · exact ih (max a y) h

/-- Appending the fixed namespace in front keeps distinct prompts distinct. -/
theorem cache_key_injective {p q : String} (h : "cache:" ++ p = "cache:" ++ q) :
    p = q := by
  have hd := congrArg String.data h
  rw [String.data_append, String.data_append] at hd
  exact String.ext (List.append_cancel_left hd)

/-- The cache check raises the `cache_hit` flag whenever it hands back a
non-empty SQL string. -/
theorem checkCache_snd_of_found (env : CallEnv) (st : CacheState) (prompt s : String)
    (hfound : (checkCache env st prompt).1 = some s) (hne : s ≠ "") :
    (checkCache env st prompt).2 = true := by
  unfold checkCache at hfound ⊢
  by_cases hp : env.probe = true
  · by_cases hg : env.getOk = true
    · simp only [hp, if_true, hg] at hfound ⊢
      rw [hfound]
      simp [truthy, hne]
    · simp [hp, hg] at hfound
  · simp only [Bool.not_eq_true] at hp
    simp only [hp] at hfound ⊢
    cases hm : (st.mock_cache.lookup prompt) with
    | none => simp [hm] at hfound
    | some v => simp [hm]

/-- If `checkCache` hands back a non-empty SQL string, the `sql` variable
is truthy. -/
theorem checkCache_truthy_of_found (env : CallEnv) (st : CacheState) (prompt s : String)
    (hfound : (checkCache env st prompt).1 = some s) (hne : s ≠ "") :
    truthy (checkCache env st prompt).1 = true := by
  rw [hfound]
  simp [truthy, hne]

/-- The execution step hands the cache state through unchanged. -/
theorem runExec_state (env : CallEnv) (st : CacheState) (sql : String) (hit : Bool)
    (g : Nat) : (runExec env st sql hit g).state = st := by
  unfold runExec
  cases (execute_sql env sql).result <;> rfl

/-- The execution step reports the generator count it was given. -/
theorem runExec_genCalls (env : CallEnv) (st : CacheState) (sql : String) (hit : Bool)
    (g : Nat) : (runExec env st sql hit g).genCalls = g := by
  unfold runExec
  cases (execute_sql env sql).result <;> rfl

/-- The execution step invokes `execute_sql` exactly once. -/
theorem runExec_execCalls (env : CallEnv) (st : CacheState) (sql : String) (hit : Bool)
    (g : Nat) : (runExec env st sql hit g).execCalls = 1 := by
  unfold runExec
  cases (execute_sql env sql).result <;> rfl

/-- The returned dict of the execution step does not depend on the cache
state being handed through nor on the generator count. -/
theorem runExec_result_congr (env : CallEnv) (st st' : CacheState) (sql : String)
    (hit : Bool) (g g' : Nat) :
    (runExec env st sql hit g).result = (runExec env st' sql hit g').result := by
  unfold runExec
  cases (execute_sql env sql).result <;> rfl

/-- The returned dict when statement execution succeeds. -/
theorem runExec_result_of_some (env : CallEnv) (st : CacheState) (sql : String)
    (hit : Bool) (g : Nat) (rows : List Row)
    (h : (execute_sql env sql).result = some rows) :
    (runExec env st sql hit g).result =
      some { sql := sql, data := rows, cache_hit := hit, count := rows.length } := by
  unfold runExec
  rw [h]

/-- The returned dict when statement execution fails. -/
theorem runExec_result_of_none (env : CallEnv) (st : CacheState) (sql : String)
    (hit : Bool) (g : Nat) (h : (execute_sql env sql).result = none) :
    (runExec env st sql hit g).result = none := by
  unfold runExec
  rw [h]

/-- The cache check leaves the hit flag down when the `sql` variable ends the
branch as `None`. -/
theorem checkCache_snd_of_none (env : CallEnv) (st : CacheState) (prompt : String)
    (h : (checkCache env st prompt).1 = none) :
    (checkCache env st prompt).2 = false := by
  unfold checkCache at h ⊢
  by_cases hp : env.probe = true
  · by_cases hg : env.getOk = true
    · simp only [hp, hg, if_true] at h ⊢
      simp [h, truthy]
    · simp [hp, hg]
  · simp only [Bool.not_eq_true] at hp
    simp only [hp] at h ⊢
    cases hm : st.mock_cache.lookup prompt with
    | some v => simp [hm] at h
    | none => simp [hm]

/-- When the prompt is absent from both backends, the cache check hands
back `None` whatever the probe and `get` outcomes are. -/
theorem checkCache_fst_of_absent (env : CallEnv) (st : CacheState) (prompt : String)
    (h₁ : st.redis.lookup ("cache:" ++ prompt) = none)
    (h₂ : st.mock_cache.lookup prompt = none) :
    (checkCache env st prompt).1 = none := by
  unfold checkCache
  by_cases hp : env.probe = true
  · by_cases hg : env.getOk = true
    · simp [hp, hg, h₁]
    · simp [hp, hg]
  · simp only [Bool.not_eq_true] at hp
    simp [hp, h₂]

/-- A call whose cache check hands back a non-empty stored SQL string
reduces to executing that string with the hit flag up and no generator
invocation. -/
theorem query_hit_eq (env : CallEnv) (st : CacheState) (prompt s : String)
    (hfound : (checkCache env st prompt).1 = some s) (hne : s ≠ "") :
    query_with_cache env st prompt = runExec env st s true 0 := by
  have hsnd := checkCache_snd_of_found env st prompt s hfound hne
  have h2 : truthy (some s) = true := by simp [truthy, hne]
  simp only [query_with_cache]
  rw [hfound, h2, hsnd]
  simp

/-- A call whose cache check ends with a falsy `sql` variable and whose
generator answers `s` reduces to storing `s` in the appropriate backend and
executing it, with the hit flag whatever the cache check left. -/
theorem query_miss_gen_eq (env : CallEnv) (st : CacheState) (prompt s : String)
    (hmiss : truthy (checkCache env st prompt).1 = false)
    (hgen : env.gen = some s) :
    query_with_cache env st prompt =
      runExec env
        (if env.probe then
          (if env.setOk then { st with redis := ("cache:" ++ prompt, s) :: st.redis } else st)
         else { st with mock_cache := (prompt, s) :: st.mock_cache })
        s (checkCache env st prompt).2 1 := by
  simp only [query_with_cache]
  rw [hmiss, hgen]
  simp

/-! Theorems for the claims. -/

/-- C4: the claim says `execute_sql` releases the connection on both the
success and the statement-failure path.  The code has no `finally`: on the
failure path the `except` branch returns `None` with the connection still
open, while the success path does close it. -/
theorem statement_failure_leaks_connection :
    execute_sql c4EnvFail "SELECT name FROM missing_table" =
      { opened := true, closed := false, result := none } ∧
    execute_sql c4EnvOk "SELECT name FROM t" =
      { opened := true, closed := true, result := some [] } :=
  ⟨rfl, rfl⟩

/-- C1 counterexample: with the empty string stored for prompt `"p"` in the
fallback dict, the cache lookup returns a stored SQL string, yet
`query_with_cache` invokes the generator (`genCalls = 1`) and returns the
freshly generated `"G"` (with `cache_hit = true`) instead of the stored
SQL; and on a genuine Redis hit whose execution fails, the call returns
`None` rather than the stored SQL string. -/
theorem empty_cached_sql_breaks_hit_contract :
    (checkCache envMockEmpty stMockEmpty "p").1 = some "" ∧
    (query_with_cache envMockEmpty stMockEmpty "p").genCalls = 1 ∧
    (query_with_cache envMockEmpty stMockEmpty "p").result =
      some { sql := "G", data := [[("a", "1")]], cache_hit := true, count := 1 } ∧
    (checkCache envRedisHitFail stRedisHit "q").1 = some "S" ∧
    (query_with_cache envRedisHitFail stRedisHit "q").result = none :=
  ⟨rfl, rfl, rfl, rfl, rfl⟩

/-- C3 counterexample: the Redis probe happens afresh inside every
`query_with_cache` call.  A first call with the probe failing stores
`"S1"` in the Local fallback; a second call in the same process with the
probe succeeding ignores that entry, re-invokes the generator, and reads
and writes the Shared backend — the backend switches within the process. -/
theorem backend_switches_between_calls :
    c3Out₁.state.mock_cache = [("p", "S1")] ∧
    c3Out₂.genCalls = 1 ∧
    c3Out₂.result =
      some { sql := "S2", data := [[("a", "1")]], cache_hit := false, count := 1 } ∧
    c3Out₂.state.redis = [("cache:p", "S2")] ∧
    ("S2" : String) ≠ "S1" :=
  ⟨rfl, rfl, rfl, rfl, by decide⟩

/-- C5 counterexample: with Redis reachable and the generator consistently
answering the empty string, both resolutions of a fresh prompt report
`cache_hit = false` and the generator runs on the repeat as well; and when
statement execution fails, the first resolution returns `None`, reporting
no `cache_hit` at all. -/
theorem empty_generated_sql_breaks_idempotence :
    c5Out₁.result = some { sql := "", data := [], cache_hit := false, count := 0 } ∧
    c5Out₂.result = some { sql := "", data := [], cache_hit := false, count := 0 } ∧
    c5Out₂.genCalls = 1 ∧
    (query_with_cache c5EnvExecFail { redis := [], mock_cache := [] } "q").result = none :=
  ⟨rfl, rfl, rfl, rfl⟩

/-- C8 counterexample: a store through the Local fallback keys the entry by
the raw prompt, not by the namespaced key the Shared backend uses — the
two backends do not share the claimed key scheme. -/
theorem local_backend_key_has_no_namespace :
    (query_with_cache c8Env { redis := [], mock_cache := [] } "p").state.mock_cache
      = [("p", "S")] ∧
    ((query_with_cache c8Env { redis := [], mock_cache := [] } "p").state.mock_cache.lookup
      ("cache:" ++ "p")) = none ∧
    ("p" : String) ≠ "cache:" ++ "p" :=
  ⟨rfl, rfl, by decide⟩

/-- C1 (amended): a cache lookup that hands back a stored **non-empty** SQL
string makes `query_with_cache` skip the generator entirely
(`genCalls = 0`), leave the cache state untouched, and any result it
returns carries that identical SQL string with `cache_hit = true`. -/
theorem cache_hit_returns_stored_sql_without_generator
    (env : CallEnv) (st : CacheState) (prompt s : String)
    (hfound : (checkCache env st prompt).1 = some s) (hne : s ≠ "") :
    (query_with_cache env st prompt).genCalls = 0 ∧
    (query_with_cache env st prompt).state = st ∧
    ∀ r, (query_with_cache env st prompt).result = some r →
      r.sql = s ∧ r.cache_hit = true := by
  have hq := query_hit_eq env st prompt s hfound hne
  rw [hq]
  unfold runExec
  cases he : (execute_sql env s).result with
  | none => simp
  | some rows =>
    refine ⟨rfl, rfl, ?_⟩
    intro r hr
    simp only [Option.some.injEq] at hr
    rw [← hr]
    exact ⟨rfl, rfl⟩

/-- Witness for the C1 theorem at a concrete Redis hit whose execution
succeeds. -/
theorem cache_hit_returns_stored_sql_without_generator_witness :
    (query_with_cache envRedisHitOk stRedisHit "q").genCalls = 0 ∧
    (query_with_cache envRedisHitOk stRedisHit "q").state = stRedisHit ∧
    ({ sql := "S", data := [[("a", "1")]], cache_hit := true, count := 1 } : QueryResult).sql
      = "S" ∧
    ({ sql := "S", data := [[("a", "1")]], cache_hit := true, count := 1 } : QueryResult).cache_hit
      = true := by
  have h := cache_hit_returns_stored_sql_without_generator envRedisHitOk stRedisHit "q" "S"
    rfl (by decide)
  exact ⟨h.1, h.2.1, (h.2.2 _ rfl).1, (h.2.2 _ rfl).2⟩

/-- C2: when the cache misses and the SQL generator raises,
`query_with_cache` returns `None`, writes to neither cache backend, never
reaches `execute_sql`, and an immediately repeated identical call from the
resulting state invokes the generator again and fails the same way. -/
theorem generator_failure_aborts_without_write_or_exec
    (env : CallEnv) (st : CacheState) (prompt : String)
    (hmiss : truthy (checkCache env st prompt).1 = false)
    (hgen : env.gen = none) :
    (query_with_cache env st prompt).result = none ∧
    (query_with_cache env st prompt).state = st ∧
    (query_with_cache env st prompt).execCalls = 0 ∧
    (query_with_cache env st prompt).genCalls = 1 ∧
    (query_with_cache env (query_with_cache env st prompt).state prompt).genCalls = 1 ∧
    (query_with_cache env (query_with_cache env st prompt).state prompt).result = none := by
  have hq : query_with_cache env st prompt =
      { result := none, state := st, genCalls := 1, execCalls := 0 } := by
    simp only [query_with_cache]
    rw [hmiss, hgen]
    simp
  have hstate : (query_with_cache env st prompt).state = st := by rw [hq]
  exact ⟨by rw [hq], hstate, by rw [hq], by rw [hq],
    by rw [hstate, hq], by rw [hstate, hq]⟩

/-- Witness for the C2 theorem: Redis reachable but empty for the prompt,
the generator raising. -/
theorem generator_failure_aborts_without_write_or_exec_witness :
    (query_with_cache c2Env c2St "p").result = none ∧
    (query_with_cache c2Env c2St "p").state = c2St ∧
    (query_with_cache c2Env c2St "p").execCalls = 0 ∧
    (query_with_cache c2Env c2St "p").genCalls = 1 ∧
    (query_with_cache c2Env (query_with_cache c2Env c2St "p").state "p").genCalls = 1 ∧
    (query_with_cache c2Env (query_with_cache c2Env c2St "p").state "p").result = none :=
  generator_failure_aborts_without_write_or_exec c2Env c2St "p" rfl rfl

/-- C3 (amended): the backend is chosen afresh inside every call.  A call
during which the Redis probe fails uses only the Local fallback: the
Shared keyspace is never written (it comes out unchanged) and never read
(the outcome is the same for any two Shared keyspaces agreeing on the
fallback dict). -/
theorem probe_failure_uses_local_backend_only
    (env : CallEnv) (st₁ st₂ : CacheState) (prompt : String)
    (hp : env.probe = false) (hm : st₁.mock_cache = st₂.mock_cache) :
    (query_with_cache env st₁ prompt).result = (query_with_cache env st₂ prompt).result ∧
    (query_with_cache env st₁ prompt).genCalls = (query_with_cache env st₂ prompt).genCalls ∧
    (query_with_cache env st₁ prompt).execCalls = (query_with_cache env st₂ prompt).execCalls ∧
    (query_with_cache env st₁ prompt).state.mock_cache
      = (query_with_cache env st₂ prompt).state.mock_cache ∧
    (query_with_cache env st₁ prompt).state.redis = st₁.redis ∧
    (query_with_cache env st₂ prompt).state.redis = st₂.redis := by
  have h2 : checkCache env st₁ prompt = checkCache env st₂ prompt := by
    simp [checkCache, hp, hm]
  by_cases ht : truthy (checkCache env st₂ prompt).1 = true
  · simp only [query_with_cache, h2, ht, if_true]
    refine ⟨runExec_result_congr env st₁ st₂ _ _ 0 0, ?_, ?_, ?_, ?_, ?_⟩
    · rw [runExec_genCalls, runExec_genCalls]
    · rw [runExec_execCalls, runExec_execCalls]
    · rw [runExec_state, runExec_state, hm]
    · rw [runExec_state]
    · rw [runExec_state]
  · simp only [query_with_cache, h2, ht, if_false, Bool.not_eq_true] at *
    cases hg : env.gen with
    | none => simp [hg, hm]
    | some sql =>
      simp only [ht, hg, hp, Bool.false_eq_true, if_false]
      refine ⟨runExec_result_congr env _ _ _ _ 1 1, ?_, ?_, ?_, ?_, ?_⟩
      · rw [runExec_genCalls, runExec_genCalls]
      · rw [runExec_execCalls, runExec_execCalls]
      · rw [runExec_state, runExec_state]
        simpa using hm
      · rw [runExec_state]
      · rw [runExec_state]

/-- Witness for the C3 theorem: with the probe failing, two states sharing
the fallback dict but with different Shared keyspaces behave identically,
and the Shared keyspaces come through unchanged. -/
theorem probe_failure_uses_local_backend_only_witness :
    (query_with_cache c3wEnv c3wSt₁ "p").result = (query_with_cache c3wEnv c3wSt₂ "p").result ∧
    (query_with_cache c3wEnv c3wSt₁ "p").genCalls
      = (query_with_cache c3wEnv c3wSt₂ "p").genCalls ∧
    (query_with_cache c3wEnv c3wSt₁ "p").execCalls
      = (query_with_cache c3wEnv c3wSt₂ "p").execCalls ∧
    (query_with_cache c3wEnv c3wSt₁ "p").state.mock_cache
      = (query_with_cache c3wEnv c3wSt₂ "p").state.mock_cache ∧
    (query_with_cache c3wEnv c3wSt₁ "p").state.redis = c3wSt₁.redis ∧
    (query_with_cache c3wEnv c3wSt₂ "p").state.redis = c3wSt₂.redis :=
  probe_failure_uses_local_backend_only c3wEnv c3wSt₁ c3wSt₂ "p" rfl rfl

/-- C9: a call during which the Redis probe succeeds uses only the Shared
backend: the fallback dict `mock_cache` is never written (it comes out
unchanged) and never read (the outcome is the same for any two fallback
dicts, so an entry stored there during an earlier outage is never returned
as a hit on such a call). -/
theorem shared_backend_call_ignores_mock_cache
    (env : CallEnv) (st₁ st₂ : CacheState) (prompt : String)
    (hp : env.probe = true) (hr : st₁.redis = st₂.redis) :
    (query_with_cache env st₁ prompt).result = (query_with_cache env st₂ prompt).result ∧
    (query_with_cache env st₁ prompt).genCalls = (query_with_cache env st₂ prompt).genCalls ∧
    (query_with_cache env st₁ prompt).execCalls = (query_with_cache env st₂ prompt).execCalls ∧
    (query_with_cache env st₁ prompt).state.redis
      = (query_with_cache env st₂ prompt).state.redis ∧
    (query_with_cache env st₁ prompt).state.mock_cache = st₁.mock_cache ∧
    (query_with_cache env st₂ prompt).state.mock_cache = st₂.mock_cache := by
  have h2 : checkCache env st₁ prompt = checkCache env st₂ prompt := by
    simp [checkCache, hp, hr]
  by_cases ht : truthy (checkCache env st₂ prompt).1 = true
  · simp only [query_with_cache, h2, ht, if_true]
    refine ⟨runExec_result_congr env st₁ st₂ _ _ 0 0, ?_, ?_, ?_, ?_, ?_⟩
    · rw [runExec_genCalls, runExec_genCalls]
    · rw [runExec_execCalls, runExec_execCalls]
    · rw [runExec_state, runExec_state, hr]
    · rw [runExec_state]
    · rw [runExec_state]
  · simp only [query_with_cache, h2, ht, if_false, Bool.not_eq_true] at *
    cases hg : env.gen with
    | none => simp [hg, hr]
    | some sql =>
      simp only [hg, hp, if_true, Bool.false_eq_true, if_false]
      by_cases hs : env.setOk = true
      · simp only [hs, if_true]
        refine ⟨runExec_result_congr env _ _ _ _ 1 1, ?_, ?_, ?_, ?_, ?_⟩
        · rw [runExec_genCalls, runExec_genCalls]
        · rw [runExec_execCalls, runExec_execCalls]
        · rw [runExec_state, runExec_state]
          simpa using hr
        · rw [runExec_state]
        · rw [runExec_state]
      · simp only [Bool.not_eq_true] at hs
        simp only [hs, Bool.false_eq_true, if_false]
        refine ⟨runExec_result_congr env _ _ _ _ 1 1, ?_, ?_, ?_, ?_, ?_⟩
        · rw [runExec_genCalls, runExec_genCalls]
        · rw [runExec_execCalls, runExec_execCalls]
        · rw [runExec_state, runExec_state, hr]
        · rw [runExec_state]
        · rw [runExec_state]

/-- Witness for the C9 theorem: with the probe succeeding, a fallback dict
holding a stale entry for the very prompt being resolved changes nothing,
and both fallback dicts come through unchanged. -/
theorem shared_backend_call_ignores_mock_cache_witness :
    (query_with_cache c9Env c9St₁ "p").result = (query_with_cache c9Env c9St₂ "p").result ∧
    (query_with_cache c9Env c9St₁ "p").genCalls
      = (query_with_cache c9Env c9St₂ "p").genCalls ∧
    (query_with_cache c9Env c9St₁ "p").execCalls
      = (query_with_cache c9Env c9St₂ "p").execCalls ∧
    (query_with_cache c9Env c9St₁ "p").state.redis
      = (query_with_cache c9Env c9St₂ "p").state.redis ∧
    (query_with_cache c9Env c9St₁ "p").state.mock_cache = c9St₁.mock_cache ∧
    (query_with_cache c9Env c9St₂ "p").state.mock_cache = c9St₂.mock_cache :=
  shared_backend_call_ignores_mock_cache c9Env c9St₁ c9St₂ "p" rfl rfl

/-- C5 (amended): for a prompt absent from both backends, two resolutions
in sequence — with the probe answering the same both times, the Redis
`get`/`setex` not raising, the generator consistently answering a
**non-empty** SQL string, and statement execution succeeding on both calls
— return `cache_hit = false` then `cache_hit = true` with the identical
SQL string both times. -/
theorem resolve_twice_hits_second_time
    (env₁ env₂ : CallEnv) (st : CacheState) (prompt s : String) (rows₁ rows₂ : List Row)
    (hnew₁ : st.redis.lookup ("cache:" ++ prompt) = none)
    (hnew₂ : st.mock_cache.lookup prompt = none)
    (hgen₁ : env₁.gen = some s) (hgen₂ : env₂.gen = some s) (hne : s ≠ "")
    (hprobe : env₂.probe = env₁.probe)
    (hget₁ : env₁.getOk = true) (hset₁ : env₁.setOk = true) (hget₂ : env₂.getOk = true)
    (hexec₁ : (execute_sql env₁ s).result = some rows₁)
    (hexec₂ : (execute_sql env₂ s).result = some rows₂) :
    (query_with_cache env₁ st prompt).result =
      some { sql := s, data := rows₁, cache_hit := false, count := rows₁.length } ∧
    (query_with_cache env₂ (query_with_cache env₁ st prompt).state prompt).result =
      some { sql := s, data := rows₂, cache_hit := true, count := rows₂.length } := by
  have hmiss1 : (checkCache env₁ st prompt).1 = none :=
    checkCache_fst_of_absent env₁ st prompt hnew₁ hnew₂
  have hsnd1 : (checkCache env₁ st prompt).2 = false :=
    checkCache_snd_of_none env₁ st prompt hmiss1
  have htr1 : truthy (checkCache env₁ st prompt).1 = false := by rw [hmiss1]; rfl
  have hq1 := query_miss_gen_eq env₁ st prompt s htr1 hgen₁
  rw [hsnd1] at hq1
  constructor
  · rw [hq1]
    exact runExec_result_of_some env₁ _ s false 1 rows₁ hexec₁
  · cases hp : env₁.probe with
    | true =>
      have hst : (query_with_cache env₁ st prompt).state =
          { st with redis := ("cache:" ++ prompt, s) :: st.redis } := by
        rw [hq1, runExec_state, hp, hset₁]
        simp
      have hc2 : (checkCache env₂ (query_with_cache env₁ st prompt).state prompt).1
          = some s := by
        rw [hst]
        simp [checkCache, hprobe.trans hp, hget₂, List.lookup]
      have hq2 := query_hit_eq env₂ _ prompt s hc2 hne
      rw [hq2]
      exact runExec_result_of_some env₂ _ s true 0 rows₂ hexec₂
    | false =>
      have hst : (query_with_cache env₁ st prompt).state =
          { st with mock_cache := (prompt, s) :: st.mock_cache } := by
        rw [hq1, runExec_state, hp]
        simp
      have hc2 : (checkCache env₂ (query_with_cache env₁ st prompt).state prompt).1
          = some s := by
        rw [hst]
        simp [checkCache, hprobe.trans hp, List.lookup]
      have hq2 := query_hit_eq env₂ _ prompt s hc2 hne
      rw [hq2]
      exact runExec_result_of_some env₂ _ s true 0 rows₂ hexec₂

/-- Witness for the C5 theorem: the same collaborators on both calls, a
fresh prompt, a non-empty generated SQL, execution succeeding. -/
theorem resolve_twice_hits_second_time_witness :
    (query_with_cache c5wEnv { redis := [], mock_cache := [] } "p").result =
      some { sql := "SELECT 1", data := [[("x", "1")]], cache_hit := false, count := 1 } ∧
    (query_with_cache c5wEnv
        (query_with_cache c5wEnv { redis := [], mock_cache := [] } "p").state "p").result =
      some { sql := "SELECT 1", data := [[("x", "1")]], cache_hit := true, count := 1 } :=
  resolve_twice_hits_second_time c5wEnv c5wEnv { redis := [], mock_cache := [] } "p"
    "SELECT 1" [[("x", "1")]] [[("x", "1")]] rfl rfl rfl rfl (by decide) rfl rfl rfl rfl
    rfl rfl

/-- Every call either factors through the execution step or returns the
generator-failure `None`. -/
theorem query_shape (env : CallEnv) (st : CacheState) (prompt : String) :
    (∃ st' sql hit g, query_with_cache env st prompt = runExec env st' sql hit g) ∨
    (query_with_cache env st prompt).result = none := by
  by_cases ht : truthy (checkCache env st prompt).1 = true
  · cases hl : (checkCache env st prompt).1 with
    | none => rw [hl] at ht; simp [truthy] at ht
    | some s =>
      have hne : s ≠ "" := by
        rw [hl] at ht
        simpa [truthy] using ht
      exact Or.inl ⟨st, s, true, 0, query_hit_eq env st prompt s hl hne⟩
  · have hmiss : truthy (checkCache env st prompt).1 = false := by
      simpa using ht
    cases hg : env.gen with
    | none =>
      right
      simp only [query_with_cache]
      rw [hmiss, hg]
      simp
    | some s =>
      exact Or.inl ⟨_, s, (checkCache env st prompt).2, 1,
        query_miss_gen_eq env st prompt s hmiss hg⟩

/-- Any dict handed back by the execution step satisfies
`count = len(data)`. -/
theorem runExec_count (env : CallEnv) (st : CacheState) (sql : String) (hit : Bool)
    (g : Nat) (r : QueryResult) (h : (runExec env st sql hit g).result = some r) :
    r.count = r.data.length := by
  unfold runExec at h
  split at h
  · simp at h
  · simp only [Option.some.injEq] at h
    subst h
    rfl

/-- Every dict returned by `query_with_cache` satisfies
`count = len(data)`. -/
theorem query_result_count (env : CallEnv) (st : CacheState) (prompt : String)
    (r : QueryResult) (h : (query_with_cache env st prompt).result = some r) :
    r.count = r.data.length := by
  rcases query_shape env st prompt with ⟨st', sql, hit, g, hq⟩ | hnone
  · rw [hq] at h
    exact runExec_count env st' sql hit g r h
  · rw [hnone] at h
    exact absurd h (by simp)

/-- C6: a successful execution returning zero rows produces a dict with
`data = []` and `count = 0` — a value distinct from the `None` that models
`ExecutionError` — and `print_results` renders it as the empty-result
message, which differs from the failure message. -/
theorem zero_rows_result_is_empty_not_failure
    (env : CallEnv) (st : CacheState) (prompt : String) (r : QueryResult)
    (hres : (query_with_cache env st prompt).result = some r)
    (hempty : r.data = []) :
    r.count = 0 ∧
    (query_with_cache env st prompt).result ≠ none ∧
    print_results ((query_with_cache env st prompt).result) = ["📭  查询结果为空"] ∧
    print_results ((query_with_cache env st prompt).result) ≠ print_results none := by
  have hc := query_result_count env st prompt r hres
  rw [hempty] at hc
  refine ⟨hc, by rw [hres]; simp, ?_, ?_⟩
  · rw [hres]
    simp [print_results, hempty]
  · rw [hres]
    simp [print_results, hempty]

/-- Witness for the C6 theorem at a concrete resolution whose statement
returns zero rows. -/
theorem zero_rows_result_is_empty_not_failure_witness :
    ({ sql := "SELECT", data := [], cache_hit := false, count := 0 } : QueryResult).count
      = 0 ∧
    (query_with_cache c6wEnv { redis := [], mock_cache := [] } "p").result ≠ none ∧
    print_results ((query_with_cache c6wEnv { redis := [], mock_cache := [] } "p").result)
      = ["📭  查询结果为空"] ∧
    print_results ((query_with_cache c6wEnv { redis := [], mock_cache := [] } "p").result)
      ≠ print_results none :=
  zero_rows_result_is_empty_not_failure c6wEnv { redis := [], mock_cache := [] } "p"
    { sql := "SELECT", data := [], cache_hit := false, count := 0 } rfl rfl

/-- C7: the formatter computes each column's display width as
`max(header_len, max_data_len) + 2`, renders each value as its first
`width-2` characters with no ellipsis (shown on a width where the slice
bites), and on the spec's example rows emits exactly the rendered table
with 2 data lines, a header line containing `id` and `name`, and a summary
line containing `共 2 条记录`. -/
theorem formatter_widths_and_example_render :
    (∀ (data : List Row) (col : String),
      colWidth data col =
        max col.length ((data.map fun row => (rowGet row col).length).foldl max 0) + 2) ∧
    dataLine ["c"] (fun _ => 4) [("c", "abcdef")] = "| ab |" ∧
    print_results (some exampleResult) =
      ["==============", "| id | name  |", "==============",
       "| 1  | Alpha |", "| 2  | B     |", "==============", "📊  共 2 条记录 "] ∧
    (exampleRows.map (dataLine ["id", "name"] (colWidth exampleRows))).length = 2 ∧
    "id".data <:+: ("| id | name  |").data ∧
    "name".data <:+: ("| id | name  |").data ∧
    ("共 2 条记录").data <:+: ("📊  共 2 条记录 ").data := by
  refine ⟨fun data col => rfl, rfl, rfl, rfl, ?_, ?_, ?_⟩ <;> decide

/-- C8 (amended): on a miss with generation succeeding, the Shared backend
stores under the key `"cache:" + prompt` (prompt verbatim after the fixed
namespace) while the Local fallback stores under the raw prompt with no
namespace; neither hashes, normalizes, or trims, and prompts differing in
any character occupy distinct keys in either backend. -/
theorem cache_keys_per_backend_and_distinct
    (env : CallEnv) (st : CacheState) (prompt other s : String)
    (hmiss : truthy (checkCache env st prompt).1 = false)
    (hgen : env.gen = some s)
    (hdiff : prompt ≠ other) :
    (env.probe = true → env.setOk = true →
      (query_with_cache env st prompt).state.redis
        = ("cache:" ++ prompt, s) :: st.redis ∧
      (query_with_cache env st prompt).state.mock_cache = st.mock_cache) ∧
    (env.probe = false →
      (query_with_cache env st prompt).state.mock_cache
        = (prompt, s) :: st.mock_cache ∧
      (query_with_cache env st prompt).state.redis = st.redis) ∧
    "cache:" ++ prompt ≠ "cache:" ++ other := by
  have hq := query_miss_gen_eq env st prompt s hmiss hgen
  refine ⟨?_, ?_, ?_⟩
  · intro hp hs
    rw [hq, runExec_state, hp, hs]
    simp
  · intro hp
    rw [hq, runExec_state, hp]
    simp
  · intro hcontr
    exact hdiff (cache_key_injective hcontr)

/-- Witness for the C8 theorem: a Shared-backend store for prompt `"p"`
lands at key `"cache:" + "p"`, the fallback dict is untouched, and the
keys of `"p"` and `"q"` differ. -/
theorem cache_keys_per_backend_and_distinct_witness :
    ((query_with_cache c8wEnv { redis := [], mock_cache := [] } "p").state.redis
        = [("cache:" ++ "p", "S8")] ∧
      (query_with_cache c8wEnv { redis := [], mock_cache := [] } "p").state.mock_cache
        = []) ∧
    "cache:" ++ "p" ≠ "cache:" ++ "q" := by
  have h := cache_keys_per_backend_and_distinct c8wEnv { redis := [], mock_cache := [] }
    "p" "q" "S8" rfl rfl (by decide)
  exact ⟨h.1 rfl rfl, h.2.2⟩

/-- C10: the slice `[:width-2]` in `print_results` never removes a
character, because each column's width is `2` plus at least the maximum
stringified value length over the rows; so every value of every row is
rendered in full. -/
theorem truncation_never_drops_characters
    (data : List Row) (row : Row) (col : String) (hmem : row ∈ data) :
    pyslice (rowGet row col) (colWidth data col - 2) = rowGet row col := by
  have h1 : (rowGet row col).length ≤
      (data.map fun r => (rowGet r col).length).foldl max 0 :=
    mem_le_foldl_max _ 0 _ (List.mem_map_of_mem _ hmem)
  have h2 : colWidth data col - 2 =
      max col.length ((data.map fun r => (rowGet r col).length).foldl max 0) := by
    simp [colWidth]
  have h3 : (rowGet row col).length ≤ colWidth data col - 2 := by
    rw [h2]
    exact le_trans h1 (le_max_right _ _)
  unfold pyslice
  have h4 : (rowGet row col).data.length ≤ colWidth data col - 2 := h3
  rw [List.take_of_length_le h4]

/-- Witness for the C10 theorem on the second example row's `name` value. -/
theorem truncation_never_drops_characters_witness :
    pyslice (rowGet [("id", "2"), ("name", "B")] "name")
        (colWidth exampleRows "name" - 2)
      = rowGet [("id", "2"), ("name", "B")] "name" :=
  truncation_never_drops_characters exampleRows [("id", "2"), ("name", "B")] "name"
    (by decide)
